import Mathlib

/-!
Verification development for the Student Performance Tracker repository.

The definitions below are shallow embeddings of the repository's analytics
code: marks and percentages are modelled as rationals, Python tuples/lists
as Lean structures/lists, and the Streamlit/SQL glue is stripped away so
that only the arithmetic and list-processing logic remains.
-/

namespace StudentTracker

/-- A row of the `marks` table as consumed by the analytics code:
`mark[3]` is `marks_obtained`, `mark[4]` is `max_marks`. -/
structure MarkRecord where
  marks_obtained : ℚ
  max_marks : ℚ

/-- `calculate_grade` from `src/app.py` (lines 110-119): letter grade from a
percentage via a chain of `>=` threshold tests. -/
def calculate_grade (percentage : ℚ) : String :=
  if percentage ≥ 90 then "A+"
  else if percentage ≥ 85 then "A"
  else if percentage ≥ 80 then "B+"
  else if percentage ≥ 75 then "B"
  else if percentage ≥ 70 then "C+"
  else if percentage ≥ 65 then "C"
  else if percentage ≥ 60 then "D"
  else "F"

/-- Rank of a letter grade in the natural grade ordering (higher is better);
every string outside the grade alphabet maps to the bottom rank. -/
def gradeRank (g : String) : ℕ :=
  match g with
  | "A+" => 7
  | "A" => 6
  | "B+" => 5
  | "B" => 4
  | "C+" => 3
  | "C" => 2
  | "D" => 1
  | _ => 0

/-- `total_obtained = sum(mark[3] for mark in all_marks)` from the marks
statistics sidebar of `src/pages/3_Enter_Update_Marks.py` (line 523). -/
def total_obtained (marks : List MarkRecord) : ℚ :=
  (marks.map MarkRecord.marks_obtained).sum

/-- `total_possible = sum(mark[4] for mark in all_marks)` from the marks
statistics sidebar of `src/pages/3_Enter_Update_Marks.py` (line 524). -/
def total_possible (marks : List MarkRecord) : ℚ :=
  (marks.map MarkRecord.max_marks).sum

/-- `overall_percentage = (total_obtained / total_possible * 100) if
total_possible > 0 else 0` from `src/pages/3_Enter_Update_Marks.py`
(line 525). -/
def overall_percentage (marks : List MarkRecord) : ℚ :=
  if total_possible marks > 0 then total_obtained marks / total_possible marks * 100 else 0

/-- SQLite `ROUND(x, 1)`: round to one decimal place. -/
def round1 (q : ℚ) : ℚ := (round (q * 10) : ℤ) / 10

/-- The per-assessment `percentage` column,
`ROUND(m.marks/m.max_marks*100, 1)`, from the student performance query in
`src/app.py` (line 491). -/
def assessment_percentage (r : MarkRecord) : ℚ :=
  round1 (r.marks_obtained / r.max_marks * 100)

/-- `avg_performance = student_marks['percentage'].mean()` from `src/app.py`
(line 502): the arithmetic mean of the per-assessment percentages. -/
def avg_performance (marks : List MarkRecord) : ℚ :=
  (marks.map assessment_percentage).sum / (marks.length : ℚ)

/-- `C2` (counterexample): at the valid input `marks_obtained = 62`,
`max_marks = 100`, the grade computed by `calculate_grade` in `src/app.py` is
`"D"`, which is not one of the seven letters A+, A, B+, B, C+, C, F claimed
by the spec: the `src/app.py` table has an eighth band `D` for 60 ≤ p < 65. -/
theorem calculate_grade_seven_letters_counterexample :
    calculate_grade ((62 : ℚ) / 100 * 100) ∉ ["A+", "A", "B+", "B", "C+", "C", "F"] ∧
    (0 : ℚ) ≤ 62 ∧ (62 : ℚ) ≤ 100 ∧ (0 : ℚ) < 100 := by
  refine ⟨?_, by norm_num, by norm_num, by norm_num⟩
  have h : ((62 : ℚ) / 100 * 100) = 62 := by norm_num
  rw [h]
  have hg : calculate_grade 62 = "D" := by
    unfold calculate_grade
    norm_num
  rw [hg]
  decide

/-- `C2` (amended): for every valid pair `(marks_obtained, max_marks)` with
`0 ≤ marks_obtained ≤ max_marks` and `max_marks > 0`, the grade computed by
`calculate_grade` in `src/app.py` on `marks_obtained/max_marks*100` is one of
the eight letters A+, A, B+, B, C+, C, D, F. -/
theorem calculate_grade_eight_letters (m x : ℚ) (h0 : 0 ≤ m) (h1 : m ≤ x)
    (h2 : 0 < x) :
    calculate_grade (m / x * 100) ∈ ["A+", "A", "B+", "B", "C+", "C", "D", "F"] := by
  unfold calculate_grade
  split_ifs <;> simp

/-- Witness for `C2` (amended) at the concrete valid input (50, 100). -/
theorem calculate_grade_eight_letters_witness :
    (0 : ℚ) ≤ 50 ∧ (50 : ℚ) ≤ 100 ∧ (0 : ℚ) < 100 ∧
    calculate_grade ((50 : ℚ) / 100 * 100) ∈ ["A+", "A", "B+", "B", "C+", "C", "D", "F"] :=
  ⟨by norm_num, by norm_num, by norm_num,
    calculate_grade_eight_letters 50 100 (by norm_num) (by norm_num) (by norm_num)⟩

/-- `C3`: when the total of maximum marks is `0` (in particular over an empty
record list), the guarded computation in the marks statistics sidebar yields
`overall_percentage = 0` rather than a division error. -/
theorem overall_percentage_zero_total (marks : List MarkRecord)
    (h : total_possible marks = 0) : overall_percentage marks = 0 := by
  unfold overall_percentage
  rw [if_neg]
  rw [h]
  exact lt_irrefl 0

/-- Witness for `C3`: the empty record list has total possible marks `0` and
overall percentage `0`. -/
theorem overall_percentage_zero_total_witness : overall_percentage [] = 0 :=
  overall_percentage_zero_total [] rfl

set_option maxHeartbeats 1600000 in
/-- `C4`: the grade classifier `calculate_grade` of `src/app.py` is monotone
non-decreasing: a higher percentage never yields a strictly worse grade
(grades ordered F < D < C < C+ < B < B+ < A < A+ via `gradeRank`). -/
theorem calculate_grade_monotone (p1 p2 : ℚ) (h : p1 ≤ p2) :
    gradeRank (calculate_grade p1) ≤ gradeRank (calculate_grade p2) := by
  unfold calculate_grade
  split_ifs <;> first | decide | linarith

/-- Witness for `C4` at the concrete percentages 50 ≤ 90. -/
theorem calculate_grade_monotone_witness :
    (50 : ℚ) ≤ 90 ∧ gradeRank (calculate_grade 50) ≤ gradeRank (calculate_grade 90) :=
  ⟨by norm_num, calculate_grade_monotone 50 90 (by norm_num)⟩

/-- `C1`: over every non-empty list of mark records with positive maximum
marks, the sidebar's `overall_percentage` equals the pooled ratio
`total_obtained / total_possible * 100`; and it differs from the mean of the
per-assessment percentages (`avg_performance` in `src/app.py`) at the
concrete records (1/2, 90/100), so it is not the average-of-percentages. -/
theorem overall_percentage_is_pooled_ratio (marks : List MarkRecord)
    (hne : marks ≠ []) (hpos : ∀ r ∈ marks, 0 < r.max_marks) :
    overall_percentage marks = total_obtained marks / total_possible marks * 100 ∧
    overall_percentage [⟨1, 2⟩, ⟨90, 100⟩] ≠ avg_performance [⟨1, 2⟩, ⟨90, 100⟩] := by
  constructor
  · have hp : 0 < total_possible marks := by
      unfold total_possible
      apply List.sum_pos
      · intro x hx
        rcases List.mem_map.1 hx with ⟨r, hr, rfl⟩
        exact hpos r hr
      · simpa using hne
    unfold overall_percentage
    rw [if_pos hp]
  · have h1 : overall_percentage [⟨1, 2⟩, ⟨90, 100⟩] = 9100 / 102 := by
      unfold overall_percentage total_obtained total_possible
      norm_num
    have h2 : avg_performance [⟨1, 2⟩, ⟨90, 100⟩] = 70 := by
      unfold avg_performance assessment_percentage round1
      norm_num [round_eq]
    rw [h1, h2]
    norm_num

/-- Witness for `C1` at the concrete one-record list [50/100]. -/
theorem overall_percentage_is_pooled_ratio_witness :
    overall_percentage [⟨50, 100⟩] =
      total_obtained [⟨50, 100⟩] / total_possible [⟨50, 100⟩] * 100 ∧
    overall_percentage [⟨1, 2⟩, ⟨90, 100⟩] ≠ avg_performance [⟨1, 2⟩, ⟨90, 100⟩] :=
  overall_percentage_is_pooled_ratio [⟨50, 100⟩] (by simp)
    (by
      intro r hr
      rw [List.mem_singleton] at hr
      subst hr
      show (0 : ℚ) < 100
      norm_num)

/-- Python's `str.lower()` (ASCII lowering), as used by
`create_status_badge` in `src/utils/ui_components.py`. -/
def py_lower (s : String) : String := String.mk (s.data.map Char.toLower)

/-- Python's `percentage is not None and test(percentage)` guard. -/
def pct_test (percentage : Option ℚ) (test : ℚ → Bool) : Bool :=
  match percentage with
  | some p => test p
  | none => false

/-- `create_status_badge` from `src/utils/ui_components.py` (lines 167-174):
the Pass badge when the status string lowers to "pass" or the percentage is
at least 40; the Fail badge when it lowers to "fail" or the percentage is
below 40; otherwise a neutral badge echoing the status. -/
def create_status_badge (status : String) (percentage : Option ℚ) : String :=
  if py_lower status == "pass" || pct_test percentage (fun p => decide (p ≥ 40)) then
    "🟢 Pass"
  else if py_lower status == "fail" || pct_test percentage (fun p => decide (p < 40)) then
    "🔴 Fail"
  else "⚪ " ++ status

/-- `status = "Pass" if subject['percentage'] >= 40 else "Fail"` from
`src/pages/4_Student_Report_Card.py` (line 132). -/
def report_status (percentage : ℚ) : String :=
  if percentage ≥ 40 then "Pass" else "Fail"

/-- `C5`: the pass/fail classification is "Pass" exactly when the percentage
is at least 40 and "Fail" otherwise, both for the report-card status and for
the badge rendered from that status; the computation consults no grade band. -/
theorem pass_threshold_forty (p : ℚ) :
    (report_status p = "Pass" ↔ 40 ≤ p) ∧
    (report_status p = "Fail" ↔ p < 40) ∧
    (create_status_badge (report_status p) (some p) = "🟢 Pass" ↔ 40 ≤ p) ∧
    (create_status_badge (report_status p) (some p) = "🔴 Fail" ↔ p < 40) := by
  rcases le_or_lt 40 p with h | h
  · have hs : report_status p = "Pass" := by
      unfold report_status
      rw [if_pos h]
    have hb : create_status_badge (report_status p) (some p) = "🟢 Pass" := by
      rw [hs]
      unfold create_status_badge
      rw [if_pos]
      rw [Bool.or_eq_true]
      left
      decide
    refine ⟨⟨fun _ => h, fun _ => hs⟩, ⟨?_, ?_⟩, ⟨fun _ => h, fun _ => hb⟩, ⟨?_, ?_⟩⟩
    · intro hcontra
      rw [hs] at hcontra
      exact absurd hcontra (by decide)
    · intro hlt
      exact absurd h (not_le.mpr hlt)
    · intro hcontra
      rw [hb] at hcontra
      exact absurd hcontra (by decide)
    · intro hlt
      exact absurd h (not_le.mpr hlt)
  · have hs : report_status p = "Fail" := by
      unfold report_status
      rw [if_neg (not_le.mpr h)]
    have hb : create_status_badge (report_status p) (some p) = "🔴 Fail" := by
      rw [hs]
      unfold create_status_badge
      rw [if_neg, if_pos]
      · rw [Bool.or_eq_true]
        right
        simp only [pct_test, decide_eq_true_eq]
        exact h
      · intro hor
        rw [Bool.or_eq_true] at hor
        rcases hor with hor | hor
        · exact absurd hor (by decide)
        · simp only [pct_test, decide_eq_true_eq] at hor
          exact absurd hor (not_le.mpr h)
    refine ⟨⟨?_, ?_⟩, ⟨fun _ => h, fun _ => hs⟩, ⟨?_, ?_⟩, ⟨fun _ => h, fun _ => hb⟩⟩
    · intro hcontra
      rw [hs] at hcontra
      exact absurd hcontra (by decide)
    · intro hge
      exact absurd hge (not_le.mpr h)
    · intro hcontra
      rw [hb] at hcontra
      exact absurd hcontra (by decide)
    · intro hge
      exact absurd hge (not_le.mpr h)

/-- `C9`: whenever a percentage of at least 40 is supplied,
`create_status_badge` returns the Pass badge regardless of the status string,
even a contradictory "Fail". -/
theorem create_status_badge_pass_override (status : String) (p : ℚ)
    (h : 40 ≤ p) : create_status_badge status (some p) = "🟢 Pass" := by
  unfold create_status_badge
  rw [if_pos]
  rw [Bool.or_eq_true]
  right
  simp only [pct_test, decide_eq_true_eq]
  exact h

/-- Witness for `C9`: the textual status "Fail" with percentage 40 still
yields the Pass badge. -/
theorem create_status_badge_pass_override_witness :
    create_status_badge "Fail" (some 40) = "🟢 Pass" :=
  create_status_badge_pass_override "Fail" 40 (by norm_num)

/-- A marks argument as received by `validate_marks`: either a value that
`int()` converts successfully, or one on which `int()` raises
(`ValueError`/`TypeError`). -/
inductive MarksInput where
  | intVal (n : ℤ)
  | nonNumeric

/-- `validate_marks` from `src/utils/validations.py` (lines 64-92): returns
`(len(errors) == 0, errors)`. A non-numeric marks value returns immediately;
otherwise the checks are negative marks, `max_marks <= 0`,
`max_marks > 1000` ("Maximum marks seems too high"), and
`marks_obtained > max_marks`. -/
def validate_marks (marks_obtained max_marks : MarksInput) : Bool × List String :=
  match marks_obtained with
  | MarksInput.nonNumeric => (false, ["Marks must be a valid number"])
  | MarksInput.intVal m =>
    let errs1 := if m < 0 then ["Marks cannot be negative"] else []
    match max_marks with
    | MarksInput.nonNumeric => (false, errs1 ++ ["Maximum marks must be a valid number"])
    | MarksInput.intVal x =>
      let errs2 := errs1 ++
        (if x ≤ 0 then ["Maximum marks must be greater than 0"]
         else if x > 1000 then ["Maximum marks seems too high"]
         else [])
      let errs3 := errs2 ++
        (if m > x then ["Marks obtained cannot exceed maximum marks"] else [])
      (errs3.isEmpty, errs3)

/-- `validate_assessment_date` from `src/utils/validations.py` (lines
94-105); dates are modelled as proleptic Gregorian ordinals (as in Python's
`date.toordinal`), with `none` standing for a missing date. -/
def validate_assessment_date (today : ℤ) (assessment_date : Option ℤ) :
    Bool × List String :=
  match assessment_date with
  | none => (false, ["Assessment date is required"])
  | some d =>
    if d > today then (false, ["Assessment date cannot be in the future"])
    else if d < 737425 then (false, ["Assessment date is too old"])
    else (true, [])

/-- The InputInvalid taxonomy for a marks entry as the spec words it:
non-numeric marks, negative marks, `max_marks ≤ 0`, or
`marks_obtained > max_marks` (a second definition written from the spec, to
be compared with `validate_marks` from the source). -/
def input_invalid_taxonomy (marks_obtained max_marks : MarksInput) : Prop :=
  marks_obtained = MarksInput.nonNumeric ∨
  max_marks = MarksInput.nonNumeric ∨
  (∃ m, marks_obtained = MarksInput.intVal m ∧ m < 0) ∨
  (∃ x, max_marks = MarksInput.intVal x ∧ x ≤ 0) ∨
  (∃ m x, marks_obtained = MarksInput.intVal m ∧ max_marks = MarksInput.intVal x ∧ m > x)

/-- `C8` (counterexample): at marks 500 out of a maximum of 1001,
`validate_marks` rejects the entry although the InputInvalid taxonomy holds
nowhere, so "fails exactly for the taxonomy" is false: the validator also
enforces `max_marks ≤ 1000`. -/
theorem validate_marks_taxonomy_counterexample :
    ¬ (((validate_marks (MarksInput.intVal 500) (MarksInput.intVal 1001)).1 = false) ↔
        input_invalid_taxonomy (MarksInput.intVal 500) (MarksInput.intVal 1001)) := by
  intro h
  have h1 : (validate_marks (MarksInput.intVal 500) (MarksInput.intVal 1001)).1 = false := by
    decide
  have h2 := h.mp h1
  rcases h2 with h2 | h2 | ⟨m, hm, hlt⟩ | ⟨x, hx, hle⟩ | ⟨m, x, hm, hx, hgt⟩
  · exact MarksInput.noConfusion h2
  · exact MarksInput.noConfusion h2
  · rw [MarksInput.intVal.injEq] at hm
    omega
  · rw [MarksInput.intVal.injEq] at hx
    omega
  · rw [MarksInput.intVal.injEq] at hm hx
    omega

/-- `C8` (amended): `validate_marks` fails exactly for non-numeric marks,
non-numeric maximum marks, negative marks, `max_marks ≤ 0`,
`max_marks > 1000`, or `marks_obtained > max_marks`; and
`validate_assessment_date` fails for a future-dated assessment. -/
theorem validate_marks_amended_taxonomy (mo mx : MarksInput) (today d : ℤ)
    (h : today < d) :
    ((validate_marks mo mx).1 = false ↔
      (mo = MarksInput.nonNumeric ∨
       mx = MarksInput.nonNumeric ∨
       (∃ m, mo = MarksInput.intVal m ∧ m < 0) ∨
       (∃ x, mx = MarksInput.intVal x ∧ (x ≤ 0 ∨ 1000 < x)) ∨
       (∃ m x, mo = MarksInput.intVal m ∧ mx = MarksInput.intVal x ∧ m > x))) ∧
    (validate_assessment_date today (some d)).1 = false := by
  constructor
  · cases mo with
    | nonNumeric => simp [validate_marks]
    | intVal m =>
      cases mx with
      | nonNumeric => simp [validate_marks]
      | intVal x =>
        simp only [validate_marks]
        split_ifs <;> simp_all
  · dsimp only [validate_assessment_date]
    have h' : d > today := h
    rw [if_pos h']

/-- Witness for `C8` (amended) at marks 5 of 10 and a date one day after
"today". -/
theorem validate_marks_amended_taxonomy_witness :
    ((validate_marks (MarksInput.intVal 5) (MarksInput.intVal 10)).1 = false ↔
      (MarksInput.intVal 5 = MarksInput.nonNumeric ∨
       MarksInput.intVal 10 = MarksInput.nonNumeric ∨
       (∃ m, MarksInput.intVal 5 = MarksInput.intVal m ∧ m < 0) ∨
       (∃ x, MarksInput.intVal 10 = MarksInput.intVal x ∧ (x ≤ 0 ∨ 1000 < x)) ∨
       (∃ m x, MarksInput.intVal 5 = MarksInput.intVal m ∧
         MarksInput.intVal 10 = MarksInput.intVal x ∧ m > x))) ∧
    (validate_assessment_date 738000 (some 738001)).1 = false :=
  validate_marks_amended_taxonomy (MarksInput.intVal 5) (MarksInput.intVal 10)
    738000 738001 (by omega)

/-- `C10`: `validate_marks` rejects every entry whose maximum marks exceed
1000, even when `0 ≤ marks_obtained ≤ max_marks`. -/
theorem validate_marks_rejects_large_max (m x : ℤ) (h0 : 0 ≤ m) (h1 : m ≤ x)
    (h2 : 1000 < x) :
    (validate_marks (MarksInput.intVal m) (MarksInput.intVal x)).1 = false := by
  dsimp only [validate_marks]
  rw [if_neg (by omega : ¬ m < 0), if_neg (by omega : ¬ x ≤ 0),
    if_pos (by omega : x > 1000), if_neg (by omega : ¬ m > x)]
  rfl

/-- Witness for `C10`: the otherwise valid entry 500 of 1001 is reported
invalid. -/
theorem validate_marks_rejects_large_max_witness :
    (validate_marks (MarksInput.intVal 500) (MarksInput.intVal 1001)).1 = false :=
  validate_marks_rejects_large_max 500 1001 (by omega) (by omega) (by omega)

/-- An entry of `student_summary['subject_details']` as displayed by
`src/pages/4_Student_Report_Card.py`. -/
structure SubjectDetail where
  subject : String
  marks_obtained : ℚ
  max_marks : ℚ
  percentage : ℚ
  grade : String

/-- The key order used by `sorted(..., key=lambda x: x['percentage'],
reverse=True)`. -/
def by_percentage_desc (a b : SubjectDetail) : Prop :=
  b.percentage ≤ a.percentage

/-- The key order used by `sorted(..., key=lambda x: x['percentage'])`. -/
def by_percentage_asc (a b : SubjectDetail) : Prop :=
  a.percentage ≤ b.percentage

instance : DecidableRel by_percentage_desc :=
  fun a b => decidable_of_iff (b.percentage ≤ a.percentage) Iff.rfl

instance : DecidableRel by_percentage_asc :=
  fun a b => decidable_of_iff (a.percentage ≤ b.percentage) Iff.rfl

instance : IsTotal SubjectDetail by_percentage_desc :=
  ⟨fun a b => le_total b.percentage a.percentage⟩

instance : IsTrans SubjectDetail by_percentage_desc :=
  ⟨fun _ _ _ h1 h2 => le_trans h2 h1⟩

instance : IsTotal SubjectDetail by_percentage_asc :=
  ⟨fun a b => le_total a.percentage b.percentage⟩

instance : IsTrans SubjectDetail by_percentage_asc :=
  ⟨fun _ _ _ h1 h2 => le_trans h1 h2⟩

/-- `best_subjects = sorted(student_summary['subject_details'], key=lambda
x: x['percentage'], reverse=True)[:3]` from
`src/pages/4_Student_Report_Card.py` (lines 173-174); Python's stable sort
is modelled by insertion sort, which is stable. -/
def best_subjects (details : List SubjectDetail) : List SubjectDetail :=
  (List.insertionSort by_percentage_desc details).take 3

/-- `weak_subjects = [s for s in subject_details if s['percentage'] < 60]`
sorted ascending by percentage and truncated to 3, from
`src/pages/4_Student_Report_Card.py` (lines 193-199). -/
def weak_subjects (details : List SubjectDetail) : List SubjectDetail :=
  (List.insertionSort by_percentage_asc
    (details.filter (fun s => decide (s.percentage < 60)))).take 3

/-- `C7`: the report card's strengths list is the top-3 subjects by
percentage descending (each listed subject scores at least as high as every
unlisted one), and the improvement areas are subjects below 60%, at most 3,
ordered weakest first, and complete whenever at most 3 subjects are below
60%. -/
theorem report_card_best_and_weak_subjects (details : List SubjectDetail) :
    (best_subjects details).Pairwise by_percentage_desc ∧
    (∀ s ∈ best_subjects details, s ∈ details) ∧
    (best_subjects details).length = min 3 details.length ∧
    (∀ s ∈ best_subjects details, ∀ t ∈ details, t ∉ best_subjects details →
      t.percentage ≤ s.percentage) ∧
    (∀ s ∈ weak_subjects details, s ∈ details ∧ s.percentage < 60) ∧
    (weak_subjects details).Pairwise by_percentage_asc ∧
    (weak_subjects details).length ≤ 3 ∧
    ((details.filter (fun s => decide (s.percentage < 60))).length ≤ 3 →
      ∀ t ∈ details, t.percentage < 60 → t ∈ weak_subjects details) := by
  have hsortedL : (List.insertionSort by_percentage_desc details).Pairwise by_percentage_desc :=
    List.sorted_insertionSort by_percentage_desc details
  have hpermL : (List.insertionSort by_percentage_desc details).Perm details :=
    List.perm_insertionSort by_percentage_desc details
  have hsortedM :
      (List.insertionSort by_percentage_asc
        (details.filter (fun s => decide (s.percentage < 60)))).Pairwise by_percentage_asc :=
    List.sorted_insertionSort by_percentage_asc _
  have hpermM :
      (List.insertionSort by_percentage_asc
        (details.filter (fun s => decide (s.percentage < 60)))).Perm
        (details.filter (fun s => decide (s.percentage < 60))) :=
    List.perm_insertionSort by_percentage_asc _
  refine ⟨?_, ?_, ?_, ?_, ?_, ?_, ?_, ?_⟩
  · exact List.Pairwise.sublist (List.take_sublist 3 _) hsortedL
  · intro s hs
    exact hpermL.mem_iff.1 (List.mem_of_mem_take hs)
  · show (List.take 3 _).length = min 3 details.length
    rw [List.length_take, hpermL.length_eq]
  · intro s hs t ht hnt
    have htL : t ∈ List.insertionSort by_percentage_desc details := hpermL.mem_iff.2 ht
    have hsplit := List.take_append_drop 3 (List.insertionSort by_percentage_desc details)
    have hp : (List.take 3 (List.insertionSort by_percentage_desc details) ++
        List.drop 3 (List.insertionSort by_percentage_desc details)).Pairwise
        by_percentage_desc := by
      rw [hsplit]
      exact hsortedL
    have htd : t ∈ List.drop 3 (List.insertionSort by_percentage_desc details) := by
      rw [← hsplit] at htL
      rcases List.mem_append.1 htL with hcase | hcase
      · exact absurd hcase hnt
      · exact hcase
    exact (List.pairwise_append.1 hp).2.2 s hs t htd
  · intro s hs
    have hsM := List.mem_of_mem_take hs
    have hsF := hpermM.mem_iff.1 hsM
    rcases List.mem_filter.1 hsF with ⟨hmem, hdec⟩
    exact ⟨hmem, of_decide_eq_true hdec⟩
  · exact List.Pairwise.sublist (List.take_sublist 3 _) hsortedM
  · show (List.take 3 _).length ≤ 3
    rw [List.length_take]
    exact min_le_left _ _
  · intro hlen t ht htlt
    have htF : t ∈ details.filter (fun s => decide (s.percentage < 60)) :=
      List.mem_filter.2 ⟨ht, decide_eq_true htlt⟩
    have htM : t ∈ List.insertionSort by_percentage_asc
        (details.filter (fun s => decide (s.percentage < 60))) :=
      hpermM.mem_iff.2 htF
    show t ∈ List.take 3 _
    rw [List.take_of_length_le (by rw [hpermM.length_eq]; exact hlen)]
    exact htM

/-- A per-student summary as consumed by the ranking engine: the student's
name and pooled overall percentage. -/
structure StudentSummary where
  name : String
  overall_percentage : ℚ

/-- Modelled from the spec: the ordering of `rank_top_performers` (§4.3).
The repository's ranking lives in `models/` (absent from `src/`; `src/app.py`
lines 583-595 only issue `ORDER BY avg_score DESC` in SQL with no defined
tie-break); the spec mandates overall percentage descending with a
deterministic tie-break, e.g. student name ascending, which is adopted
here. -/
def rank_le (a b : StudentSummary) : Prop :=
  b.overall_percentage < a.overall_percentage ∨
    (a.overall_percentage = b.overall_percentage ∧ a.name ≤ b.name)

instance : DecidableRel rank_le :=
  fun a b => decidable_of_iff (b.overall_percentage < a.overall_percentage ∨
    (a.overall_percentage = b.overall_percentage ∧ a.name ≤ b.name)) Iff.rfl

instance : IsTotal StudentSummary rank_le := ⟨by
  intro a b
  rcases lt_trichotomy a.overall_percentage b.overall_percentage with h | h | h
  · exact Or.inr (Or.inl h)
  · rcases le_total a.name b.name with hn | hn
    · exact Or.inl (Or.inr ⟨h, hn⟩)
    · exact Or.inr (Or.inr ⟨h.symm, hn⟩)
  · exact Or.inl (Or.inl h)⟩

instance : IsTrans StudentSummary rank_le := ⟨by
  intro a b c hab hbc
  rcases hab with hab | ⟨habe, han⟩
  · rcases hbc with hbc | ⟨hbce, hbn⟩
    · exact Or.inl (lt_trans hbc hab)
    · refine Or.inl ?_
      rw [← hbce]
      exact hab
  · rcases hbc with hbc | ⟨hbce, hbn⟩
    · refine Or.inl ?_
      rw [habe]
      exact hbc
    · exact Or.inr ⟨habe.trans hbce, le_trans han hbn⟩⟩

/-- Modelled from the spec: `rank_top_performers(summaries, limit)` (§4.3) —
sort by overall percentage descending with the deterministic name tie-break
and keep at most `limit` entries. -/
def rank_top_performers (summaries : List StudentSummary) (limit : ℕ) :
    List StudentSummary :=
  (List.insertionSort rank_le summaries).take limit

/-- `C6`: `rank_top_performers` orders summaries by overall percentage
descending (with deterministic output: as a pure function it returns the
same order on repeated calls, duplicates included), draws its entries from
the input, and returns at most `limit` of them. -/
theorem rank_top_performers_sorted_deterministic (l : List StudentSummary)
    (n : ℕ) :
    (rank_top_performers l n).Pairwise
      (fun a b => b.overall_percentage ≤ a.overall_percentage) ∧
    (∀ s ∈ rank_top_performers l n, s ∈ l) ∧
    (rank_top_performers l n).length = min n l.length ∧
    rank_top_performers l n = rank_top_performers l n := by
  have hsorted : (List.insertionSort rank_le l).Pairwise rank_le :=
    List.sorted_insertionSort rank_le l
  have hperm : (List.insertionSort rank_le l).Perm l :=
    List.perm_insertionSort rank_le l
  refine ⟨?_, ?_, ?_, rfl⟩
  · have hdesc : (List.insertionSort rank_le l).Pairwise
        (fun a b => b.overall_percentage ≤ a.overall_percentage) := by
      refine hsorted.imp ?_
      intro a b hab
      rcases hab with hab | ⟨hab, _⟩
      · exact le_of_lt hab
      · exact le_of_eq hab.symm
    exact List.Pairwise.sublist (List.take_sublist n _) hdesc
  · intro s hs
    exact hperm.mem_iff.1 (List.mem_of_mem_take hs)
  · show (List.take n _).length = min n l.length
    rw [List.length_take, hperm.length_eq]

end StudentTracker
